import Mathlib

/-!
Shallow embedding of the realtime WebRTC session hook
(src/lib/use-realtime-webrtc.ts). The file concatenates two variants of
the hook; where their handlers differ the embedding carries both a V1
and a V2 definition, named after the source symbols.

The hook's mutable refs (pcRef, dcRef, audioElementRef, localStreamRef,
reconnectTimeoutRef, connectionAttempts) and the React connection-state
cell become fields of an explicit state record; each event-handler
closure becomes a state-transition function. Timers are modelled by an
optional pending-timer value (the code keeps a single timeout ref used
for both the 5s ICE grace wait and the linear-backoff reconnect wait);
firing a timer is an explicit event of the recovery machine.
-/

namespace RW

/-- The externally observable status of ConnectionState
(src/lib/use-realtime-webrtc.ts lines 10-13). -/
inductive ConnStatus
  | disconnected
  | connecting
  | connected
  | error
deriving DecidableEq, Repr

/-- RTCIceConnectionState values the handlers branch on. -/
inductive IceState
  | new
  | checking
  | connected
  | completed
  | disconnected
  | failed
  | closed
deriving DecidableEq, Repr

/-- RTCDataChannel readyState. The source string 'open' is rendered as
`opened` because `open` is a Lean keyword. -/
inductive DCReady
  | connecting
  | opened
  | closing
  | closed
deriving DecidableEq, Repr

/-- A local capture track (MediaStreamTrack): only its stopped flag
matters to the teardown claims. -/
structure Track where
  stopped : Bool
deriving DecidableEq, Repr

/-- A local media stream (MediaStream) as its list of tracks. -/
structure MediaStream where
  tracks : List Track
deriving DecidableEq, Repr

/-- A peer connection (RTCPeerConnection): an identity tag (to tell a
fresh connection from a prior one), its closed flag and its current ICE
connection state. -/
structure PeerConn where
  pcId : Nat
  closed : Bool
  iceState : IceState
deriving DecidableEq, Repr

/-- A data channel (RTCDataChannel). -/
structure DataChannel where
  readyState : DCReady
deriving DecidableEq, Repr

/-- What a pending timeout in reconnectTimeoutRef was armed for: the 5s
ICE grace wait or the backoff wait before a reconnect. -/
inductive TimerKind
  | grace
  | reconnect
deriving DecidableEq, Repr

/-- A pending timeout: its purpose and its delay in milliseconds. -/
structure RTimer where
  kind : TimerKind
  delay : Nat
deriving DecidableEq, Repr

/-- The hook's state: the React connection-state cell (status plus
optional error message) and the mutable refs pcRef, dcRef,
audioElementRef, localStreamRef, reconnectTimeoutRef and
connectionAttempts. -/
structure HookState where
  status : ConnStatus
  errorMsg : Option String
  pcRef : Option PeerConn
  dcRef : Option DataChannel
  audioRef : Option Unit
  streamRef : Option MediaStream
  timerRef : Option RTimer
  attempts : Nat
deriving DecidableEq, Repr

/-- maxReconnectAttempts = 3 (line 26). -/
def maxReconnectAttempts : Nat := 3

/-- The base backoff delay: the literal 2000 in
setTimeout(..., 2000 * connectionAttempts.current). -/
def baseDelay : Nat := 2000

/-- The error message set when retries are exhausted (lines 66-69). -/
def exhaustedMsg : String :=
  "Connection failed after multiple attempts. Please check your network connection and try again."

/-- attemptReconnect, first variant (lines 46-71): if the attempt counter
is below the limit, increment it, clear any pending timeout and arm one
backoff timeout of 2000 * (new count) ms; otherwise set the terminal
error state (the else branch touches no timer). -/
def attemptReconnect (s : HookState) : HookState :=
  if s.attempts < maxReconnectAttempts then
    let n := s.attempts + 1
    { s with attempts := n, timerRef := some ⟨TimerKind.reconnect, baseDelay * n⟩ }
  else
    { s with status := ConnStatus.error, errorMsg := some exhaustedMsg }

/-- attemptReconnect, second variant (lines 414-456): same branching and
message, but before arming the backoff timeout it also closes and nulls
the current peer connection and data channel. -/
def attemptReconnectV2 (s : HookState) : HookState :=
  if s.attempts < maxReconnectAttempts then
    let n := s.attempts + 1
    { s with attempts := n, pcRef := none, dcRef := none,
             timerRef := some ⟨TimerKind.reconnect, baseDelay * n⟩ }
  else
    { s with status := ConnStatus.error, errorMsg := some exhaustedMsg }

/-- dc.close() flips the channel's readyState to closed. -/
def closeDC (d : DataChannel) : DataChannel :=
  { d with readyState := DCReady.closed }

/-- pc.close() flips the connection's closed flag. -/
def closePC (p : PeerConn) : PeerConn :=
  { p with closed := true }

/-- track.stop() flips the track's stopped flag. -/
def stopTrack (t : Track) : Track :=
  { t with stopped := true }

/-- The objects released by one disconnect() call: the channel after its
close(), the connection after its close(), the capture tracks after
their stop(), and whether an audio element was removed. The code drops
the references after these calls, so the log is the only place the
released objects remain inspectable. -/
structure ReleaseLog where
  closedDC : Option DataChannel
  closedPC : Option PeerConn
  stoppedTracks : List Track
  removedAudio : Bool
deriving DecidableEq, Repr

/-- A disconnect() call that had nothing left to release. -/
def emptyLog : ReleaseLog :=
  { closedDC := none, closedPC := none, stoppedTracks := [], removedAudio := false }

/-- The state disconnect() always reaches: every ref null, the attempt
counter zeroed, status disconnected with no error message. -/
def cleanState : HookState :=
  { status := ConnStatus.disconnected, errorMsg := none, pcRef := none,
    dcRef := none, audioRef := none, streamRef := none, timerRef := none,
    attempts := 0 }

/-- disconnect (lines 73-110): clear the reconnection timeout, reset the
attempt counter, close and null the data channel, close and null the
peer connection, stop every track of the local stream and null it,
remove the audio element, and set status disconnected. The second
variant (lines 508-546) is identical apart from also resetting the
isSessionStarted flag, modelled separately. -/
def disconnect (s : HookState) : HookState × ReleaseLog :=
  (cleanState,
   { closedDC := s.dcRef.map closeDC
     closedPC := s.pcRef.map closePC
     stoppedTracks := (s.streamRef.map (fun ms => ms.tracks.map stopTrack)).getD []
     removedAudio := s.audioRef.isSome })

/-- A realtime event: a type tag plus an opaque rendering of its other
fields (lines 5-8). -/
structure RealtimeEvent where
  type : String
  payload : String
deriving DecidableEq, Repr

/-- JSON.stringify of an event, modelled as a concrete serialization of
the two components. -/
def serializeEvent (e : RealtimeEvent) : String :=
  String.intercalate ":" [e.type, e.payload]

/-- sendEvent (lines 38-44): if the data-channel ref is set and its
readyState is open, send the serialized event on it; otherwise log a
warning and drop the event. The state is returned unchanged in both
cases (nothing is queued); the second component is the payload written
to the channel, if any. -/
def sendEvent (s : HookState) (e : RealtimeEvent) : HookState × Option String :=
  match s.dcRef with
  | some d =>
    if d.readyState = DCReady.opened then (s, some (serializeEvent e))
    else (s, none)
  | none => (s, none)

/-- The recovery controller's state: the peer connection's current ICE
connection state, the single pending timeout, the attempt counter and
the connection-state cell. `reconnectCalls` is a ghost counter of the
escalations into attemptReconnect, used to reason about how many
reconnection attempts a run triggers; it changes nothing else. -/
structure RecMachine where
  ice : IceState
  timer : Option RTimer
  attempts : Nat
  status : ConnStatus
  errorMsg : Option String
  reconnectCalls : Nat
deriving DecidableEq, Repr

/-- attemptReconnect on the recovery machine: the same branching, delay
and message as attemptReconnect, plus the ghost count of the call. -/
def attemptReconnectRec (s : RecMachine) : RecMachine :=
  let s := { s with reconnectCalls := s.reconnectCalls + 1 }
  if s.attempts < maxReconnectAttempts then
    let n := s.attempts + 1
    { s with attempts := n, timer := some ⟨TimerKind.reconnect, baseDelay * n⟩ }
  else
    { s with status := ConnStatus.error, errorMsg := some exhaustedMsg }

/-- Events driving the recovery controller: an ICE connection-state
change notification, or the pending grace timeout firing. -/
inductive RecEvt
  | iceChange (st : IceState)
  | graceFire
deriving DecidableEq, Repr

/-- oniceconnectionstatechange (first variant, lines 238-268) together
with the grace-timeout callback (lines 253-258). On connected/completed
the attempt counter resets (no timer is touched); on disconnected any
pending timeout is cleared and a single 5000 ms grace timeout is armed;
on failed attemptReconnect runs immediately; new/checking/closed only
log. When the grace timeout fires it is spent, and escalation happens
exactly when the ICE state read at fire time is still disconnected or
has become failed. -/
def recStep (s : RecMachine) : RecEvt → RecMachine
  | RecEvt.iceChange st =>
    let s := { s with ice := st }
    match st with
    | IceState.connected => { s with attempts := 0 }
    | IceState.completed => { s with attempts := 0 }
    | IceState.disconnected => { s with timer := some ⟨TimerKind.grace, 5000⟩ }
    | IceState.failed => attemptReconnectRec s
    | _ => s
  | RecEvt.graceFire =>
    match s.timer with
    | some t =>
      if t.kind = TimerKind.grace then
        let s := { s with timer := none }
        if s.ice = IceState.disconnected ∨ s.ice = IceState.failed then
          attemptReconnectRec s
        else s
      else s
    | none => s

/-- Running the recovery machine over a list of events. -/
def recRun (s : RecMachine) (evts : List RecEvt) : RecMachine :=
  List.foldl recStep s evts

/-- A fresh peer connection object as new RTCPeerConnection returns it:
not closed, ICE state new. The tag distinguishes it from prior
connections. -/
def newPeerConn (fresh : Nat) : PeerConn :=
  { pcId := fresh, closed := false, iceState := IceState.new }

/-- The synchronous prologue of connect, first variant (lines 112-133),
up to the first await: set status connecting, create a fresh peer
connection and store it in pcRef (the prior value is overwritten, not
closed — it is returned as the second component exactly as it was), and
create and store a fresh audio element. No guard on the current status
exists in the source. -/
def connectStartV1 (s : HookState) (fresh : Nat) : HookState × Option PeerConn :=
  ({ s with status := ConnStatus.connecting, errorMsg := none,
            pcRef := some (newPeerConn fresh), audioRef := some () },
   s.pcRef)

/-- The hook state of the second variant: the same refs plus the
isSessionStarted React flag (line 386). -/
structure HookStateV2 where
  base : HookState
  isSessionStarted : Bool
deriving DecidableEq, Repr

/-- The synchronous prologue of connect, second variant (lines 548-575):
set status connecting; only when isSessionStarted is still false does
the handshake block run (setting the flag and creating a fresh peer
connection); once the flag is set, connect only re-sets the connecting
status and performs no new handshake. -/
def connectStartV2 (s : HookStateV2) (fresh : Nat) : HookStateV2 :=
  let s := { s with base := { s.base with status := ConnStatus.connecting, errorMsg := none } }
  if s.isSessionStarted then s
  else
    { s with isSessionStarted := true,
             base := { s.base with pcRef := some (newPeerConn fresh), audioRef := some () } }

/-- The catch block of connect, first variant (lines 330-343): only when
connectionAttempts is 0 is the error state set; then disconnect runs as
cleanup, which overwrites the connection state with disconnected and
resets the counter. -/
def handleConnectFailureV1 (s : HookState) (msg : String) : HookState × ReleaseLog :=
  let s1 :=
    if s.attempts = 0 then { s with status := ConnStatus.error, errorMsg := some msg }
    else s
  disconnect s1

/-- The catch block of connect, second variant (lines 709-717): the
error state is set unconditionally, then attemptReconnect (second
variant) runs, which arms a backoff timeout whenever the counter is
below the limit. -/
def handleConnectFailureV2 (s : HookState) (msg : String) : HookState :=
  attemptReconnectV2 { s with status := ConnStatus.error, errorMsg := some msg }

/-- Whether a listener invocation returns normally or raises. -/
inductive Outcome
  | ok
  | raised
deriving DecidableEq, Repr

/-- A registered event listener: an identity tag and its behaviour on a
given event. -/
structure Listener where
  lid : Nat
  behave : RealtimeEvent → Outcome

/-- dc.onmessage's listener loop, first variant (lines 182-189):
eventListeners.forEach with a try/catch around each call, so a raising
listener is logged and the loop continues. The result is the invocation
log: each invoked listener's tag with the outcome of its call, in
registration order. -/
def publishV1 : List Listener → RealtimeEvent → List (Nat × Outcome)
  | [], _ => []
  | l :: rest, e => (l.lid, l.behave e) :: publishV1 rest e

/-- The dc message listener, second variant (lines 701-704):
eventListeners.forEach with no per-listener catch, so a raising listener
aborts the loop and no later listener is invoked. -/
def publishV2 : List Listener → RealtimeEvent → List (Nat × Outcome)
  | [], _ => []
  | l :: rest, e =>
    match l.behave e with
    | Outcome.ok => (l.lid, Outcome.ok) :: publishV2 rest e
    | Outcome.raised => [(l.lid, Outcome.raised)]

/-- Whether the data channel is live and open — the condition under
which sendEvent actually transmits. -/
def dcOpenProp (s : HookState) : Prop :=
  ∃ d, s.dcRef = some d ∧ d.readyState = DCReady.opened

/-- A state with the retry budget exhausted, for instantiations. -/
def sExhausted : HookState :=
  { cleanState with attempts := maxReconnectAttempts }

/-- A state one retry in, for instantiations. -/
def sRetrying : HookState :=
  { cleanState with status := ConnStatus.connecting, attempts := 1 }

/-- A fully connected state with a live peer connection, open channel,
one live capture track, an attached audio element and no pending timer,
for instantiations. -/
def sConnected : HookState :=
  { status := ConnStatus.connected, errorMsg := none,
    pcRef := some { pcId := 0, closed := false, iceState := IceState.connected },
    dcRef := some { readyState := DCReady.opened },
    audioRef := some (),
    streamRef := some { tracks := [{ stopped := false }] },
    timerRef := none, attempts := 0 }

/-- A state in the middle of the first connection attempt (counter still
0, no timer), for instantiations. -/
def sFirstTry : HookState :=
  { cleanState with status := ConnStatus.connecting }

/-- A recovery machine sitting in a sustained ICE disconnection with the
grace timeout pending, for instantiations. -/
def sW : RecMachine :=
  { ice := IceState.disconnected, timer := some ⟨TimerKind.grace, 5000⟩,
    attempts := 0, status := ConnStatus.connecting, errorMsg := none,
    reconnectCalls := 0 }

/-- A freshly connected recovery machine. -/
def rec0 : RecMachine :=
  { ice := IceState.new, timer := none, attempts := 0,
    status := ConnStatus.connecting, errorMsg := none, reconnectCalls := 0 }

/-- A second-variant state whose session has already started. -/
def s2Started : HookStateV2 :=
  { base := sConnected, isSessionStarted := true }

/-- A listener that raises on every event. -/
def raiser : Listener :=
  { lid := 0, behave := fun _ => Outcome.raised }

/-- A listener that returns normally on every event. -/
def quiet : Listener :=
  { lid := 1, behave := fun _ => Outcome.ok }

/-- A sample inbound control event. -/
def demoEvent : RealtimeEvent :=
  { type := "response.done", payload := "" }

/-- Stopping every track of a stream leaves every track stopped. -/
theorem all_tracks_stopped (l : List Track) :
    ((l.map stopTrack).all fun t => t.stopped) = true := by
  induction l with
  | nil => rfl
  | cons t l ih => simp [stopTrack, ih]

/-- attemptReconnectRec bumps the ghost escalation counter by exactly
one, in both of its branches. -/
theorem attemptReconnectRec_calls (s : RecMachine) :
    (attemptReconnectRec s).reconnectCalls = s.reconnectCalls + 1 := by
  simp only [attemptReconnectRec]
  split <;> rfl

/-- One ICE disconnected notification records the state and arms the
single grace timeout, overwriting any pending timeout. -/
theorem recStep_disconnected (s : RecMachine) :
    recStep s (RecEvt.iceChange IceState.disconnected) =
      { s with ice := IceState.disconnected, timer := some ⟨TimerKind.grace, 5000⟩ } := rfl

/-- Any positive number of consecutive ICE disconnected notifications
leaves the machine in the same armed configuration: state disconnected,
one pending grace timeout, everything else untouched. -/
theorem recRun_replicate_disconnected (n : Nat) (s : RecMachine) :
    recRun s (List.replicate (n + 1) (RecEvt.iceChange IceState.disconnected)) =
      { s with ice := IceState.disconnected, timer := some ⟨TimerKind.grace, 5000⟩ } := by
  induction n generalizing s with
  | zero => rfl
  | succ n ih =>
    have h1 : recRun s (List.replicate (n + 1 + 1) (RecEvt.iceChange IceState.disconnected)) =
        recRun (recStep s (RecEvt.iceChange IceState.disconnected))
          (List.replicate (n + 1) (RecEvt.iceChange IceState.disconnected)) := by
      rw [List.replicate_succ]
      rfl
    rw [h1, ih]
    rfl

/-- C1: once the attempt counter has reached maxReconnectAttempts (3), a
further reconnection trigger sets the terminal error status with the
exhausted-retries message, leaves the counter alone and schedules no new
timeout; below the limit it instead increments the counter, leaves the
status alone and arms exactly one delayed reconnect (for both variants
of attemptReconnect). -/
theorem c1_attemptReconnect_policy (s : HookState) :
    (maxReconnectAttempts ≤ s.attempts →
      (attemptReconnect s).status = ConnStatus.error ∧
      (attemptReconnect s).errorMsg = some exhaustedMsg ∧
      (attemptReconnect s).timerRef = s.timerRef ∧
      (attemptReconnect s).attempts = s.attempts ∧
      (attemptReconnectV2 s).status = ConnStatus.error ∧
      (attemptReconnectV2 s).errorMsg = some exhaustedMsg ∧
      (attemptReconnectV2 s).timerRef = s.timerRef) ∧
    (s.attempts < maxReconnectAttempts →
      (attemptReconnect s).attempts = s.attempts + 1 ∧
      (attemptReconnect s).timerRef =
        some ⟨TimerKind.reconnect, baseDelay * (s.attempts + 1)⟩ ∧
      (attemptReconnect s).status = s.status ∧
      (attemptReconnectV2 s).attempts = s.attempts + 1 ∧
      (attemptReconnectV2 s).timerRef =
        some ⟨TimerKind.reconnect, baseDelay * (s.attempts + 1)⟩ ∧
      (attemptReconnectV2 s).status = s.status) := by
  constructor
  · intro h
    have h' : ¬ s.attempts < maxReconnectAttempts := Nat.not_lt.mpr h
    simp [attemptReconnect, attemptReconnectV2, h']
  · intro h
    simp [attemptReconnect, attemptReconnectV2, h]

/-- C1 witness: the policy at a state with the budget exhausted and at a
fresh state. -/
theorem c1_witness :
    ((attemptReconnect sExhausted).status = ConnStatus.error ∧
     (attemptReconnect sExhausted).errorMsg = some exhaustedMsg ∧
     (attemptReconnect sExhausted).timerRef = sExhausted.timerRef ∧
     (attemptReconnect sExhausted).attempts = sExhausted.attempts ∧
     (attemptReconnectV2 sExhausted).status = ConnStatus.error ∧
     (attemptReconnectV2 sExhausted).errorMsg = some exhaustedMsg ∧
     (attemptReconnectV2 sExhausted).timerRef = sExhausted.timerRef) ∧
    ((attemptReconnect cleanState).attempts = cleanState.attempts + 1 ∧
     (attemptReconnect cleanState).timerRef =
       some ⟨TimerKind.reconnect, baseDelay * (cleanState.attempts + 1)⟩ ∧
     (attemptReconnect cleanState).status = cleanState.status ∧
     (attemptReconnectV2 cleanState).attempts = cleanState.attempts + 1 ∧
     (attemptReconnectV2 cleanState).timerRef =
       some ⟨TimerKind.reconnect, baseDelay * (cleanState.attempts + 1)⟩ ∧
     (attemptReconnectV2 cleanState).status = cleanState.status) :=
  ⟨(c1_attemptReconnect_policy sExhausted).1 (by decide),
   (c1_attemptReconnect_policy cleanState).2 (by decide)⟩

/-- C4: disconnect() from any state reaches the one fully torn-down
state (all refs null, timer cancelled, counter zeroed, status
disconnected), every released object is closed or stopped, and a second
call is a no-op that has nothing left to release. -/
theorem c4_disconnect_teardown (s : HookState) :
    (disconnect s).1 = cleanState ∧
    (disconnect s).1.status = ConnStatus.disconnected ∧
    (disconnect s).1.timerRef = none ∧
    ((disconnect s).2.closedDC.all fun d => d.readyState == DCReady.closed) = true ∧
    ((disconnect s).2.closedPC.all fun p => p.closed) = true ∧
    ((disconnect s).2.stoppedTracks.all fun t => t.stopped) = true ∧
    disconnect (disconnect s).1 = (cleanState, emptyLog) := by
  refine ⟨rfl, rfl, rfl, ?_, ?_, ?_, rfl⟩
  · cases hd : s.dcRef <;> simp [disconnect, hd, closeDC]
  · cases hp : s.pcRef <;> simp [disconnect, hp, closePC]
  · cases hms : s.streamRef with
    | none => simp [disconnect, hms]
    | some ms => simp [disconnect, hms, stopTrack]

/-- C7: for every attempt number n between 1 and maxReconnectAttempts,
the backoff delay armed before reconnection attempt n is
baseDelay * n with baseDelay = 2000 ms, in both variants. -/
theorem c7_backoff_linear (s : HookState) (n : Nat)
    (h1 : 1 ≤ n) (h2 : n ≤ maxReconnectAttempts) (h3 : s.attempts = n - 1) :
    (attemptReconnect s).timerRef = some ⟨TimerKind.reconnect, baseDelay * n⟩ ∧
    (attemptReconnectV2 s).timerRef = some ⟨TimerKind.reconnect, baseDelay * n⟩ ∧
    baseDelay = 2000 := by
  have hlt : s.attempts < maxReconnectAttempts := by
    unfold maxReconnectAttempts at h2 ⊢
    omega
  have hn : s.attempts + 1 = n := by omega
  refine ⟨?_, ?_, rfl⟩
  · simp [attemptReconnect, hlt, hn]
  · simp [attemptReconnectV2, hlt, hn]

/-- C7 witness: the second attempt is armed after 4000 ms. -/
theorem c7_witness :
    (attemptReconnect sRetrying).timerRef = some ⟨TimerKind.reconnect, baseDelay * 2⟩ ∧
    (attemptReconnectV2 sRetrying).timerRef = some ⟨TimerKind.reconnect, baseDelay * 2⟩ ∧
    baseDelay = 2000 :=
  c7_backoff_linear sRetrying 2 (by decide) (by decide) (by decide)

/-- C9: sendEvent never changes the state (nothing is queued and nothing
raises), transmits the serialized event exactly when the channel ref is
set with readyState open, and otherwise drops the event. -/
theorem c9_sendEvent_best_effort (s : HookState) (e : RealtimeEvent) :
    (sendEvent s e).1 = s ∧
    ((sendEvent s e).2 = some (serializeEvent e) ↔ dcOpenProp s) ∧
    ((sendEvent s e).2 = none ↔ ¬ dcOpenProp s) := by
  unfold sendEvent dcOpenProp
  cases hd : s.dcRef with
  | none => simp
  | some d =>
    by_cases ho : d.readyState = DCReady.opened
    · simp [ho]
    · simp [ho]

/-- C10: disconnect() always zeroes the attempt counter, so the next
connection starts with the full retry budget: three further reconnection
triggers all schedule retries without reaching the error status, and
only a fourth trigger exhausts the budget. -/
theorem c10_disconnect_resets_budget (s : HookState) :
    (disconnect s).1.attempts = 0 ∧
    (attemptReconnect (attemptReconnect (attemptReconnect (disconnect s).1))).attempts
      = maxReconnectAttempts ∧
    (attemptReconnect (attemptReconnect (attemptReconnect (disconnect s).1))).status
      = ConnStatus.disconnected ∧
    (attemptReconnect (attemptReconnect (attemptReconnect (attemptReconnect (disconnect s).1)))).status
      = ConnStatus.error := by
  exact ⟨rfl, rfl, rfl, rfl⟩

/-- C2: an ICE disconnected notification never escalates immediately; it
arms the single 5000 ms grace timeout, overwriting any pending timeout,
so any positive number of disconnected notifications followed by the
timeout firing escalates into attemptReconnect exactly once; and a
pending grace timeout escalates at fire time exactly when the ICE state
is still disconnected or has become failed. -/
theorem c2_grace_timer (s : RecMachine) (n : Nat) :
    (recStep s (RecEvt.iceChange IceState.disconnected) =
      { s with ice := IceState.disconnected, timer := some ⟨TimerKind.grace, 5000⟩ }) ∧
    (1 ≤ n →
      (recRun s (List.replicate n (RecEvt.iceChange IceState.disconnected)
          ++ [RecEvt.graceFire])).reconnectCalls = s.reconnectCalls + 1) ∧
    (s.timer = some ⟨TimerKind.grace, 5000⟩ →
      (((recStep s RecEvt.graceFire).reconnectCalls = s.reconnectCalls + 1) ↔
        (s.ice = IceState.disconnected ∨ s.ice = IceState.failed))) := by
  refine ⟨recStep_disconnected s, ?_, ?_⟩
  · intro hn
    obtain ⟨m, rfl⟩ : ∃ m, n = m + 1 := ⟨n - 1, by omega⟩
    unfold recRun
    rw [List.foldl_append]
    have hrep := recRun_replicate_disconnected m s
    unfold recRun at hrep
    rw [hrep]
    simp [recStep, attemptReconnectRec_calls]
  · intro ht
    simp only [recStep, ht]
    by_cases hg : s.ice = IceState.disconnected ∨ s.ice = IceState.failed
    · simp [hg, attemptReconnectRec_calls]
    · simp [hg]

/-- C2 witness: the grace-timer behaviour at a machine in a sustained
disconnection with the timeout pending, with two disconnected
notifications in the window. -/
theorem c2_witness :
    (recStep sW (RecEvt.iceChange IceState.disconnected) =
      { sW with ice := IceState.disconnected, timer := some ⟨TimerKind.grace, 5000⟩ }) ∧
    ((recRun sW (List.replicate 2 (RecEvt.iceChange IceState.disconnected)
        ++ [RecEvt.graceFire])).reconnectCalls = sW.reconnectCalls + 1) ∧
    (((recStep sW RecEvt.graceFire).reconnectCalls = sW.reconnectCalls + 1) ↔
      (sW.ice = IceState.disconnected ∨ sW.ice = IceState.failed)) :=
  ⟨(c2_grace_timer sW 2).1,
   (c2_grace_timer sW 2).2.1 (by decide),
   (c2_grace_timer sW 2).2.2 (by rfl)⟩

/-- C3 counterexample: run the machine through a disconnection followed
by a recovery to connected — the claim says the pending grace timeout is
cancelled, but it is still armed (only the attempt counter resets). -/
theorem c3_counterexample :
    (recRun rec0 [RecEvt.iceChange IceState.disconnected,
        RecEvt.iceChange IceState.connected]).timer = some ⟨TimerKind.grace, 5000⟩ ∧
    ¬ (recRun rec0 [RecEvt.iceChange IceState.disconnected,
        RecEvt.iceChange IceState.connected]).timer = none ∧
    (recRun rec0 [RecEvt.iceChange IceState.disconnected,
        RecEvt.iceChange IceState.connected]).attempts = 0 := by
  refine ⟨rfl, by decide, rfl⟩

/-- C3 amended: on recovery to connected or completed the attempt
counter resets to 0, but the pending grace timeout is left untouched
rather than cancelled; the grace timeout firing afterwards does not
escalate (the fire-time guard sees a non-disconnected, non-failed
state), so no reconnection attempt occurs for that episode. -/
theorem c3_recovery_resets_attempts (s : RecMachine) :
    ((recStep s (RecEvt.iceChange IceState.connected)).attempts = 0 ∧
     (recStep s (RecEvt.iceChange IceState.connected)).timer = s.timer ∧
     (recStep (recStep s (RecEvt.iceChange IceState.connected))
        RecEvt.graceFire).reconnectCalls = s.reconnectCalls) ∧
    ((recStep s (RecEvt.iceChange IceState.completed)).attempts = 0 ∧
     (recStep s (RecEvt.iceChange IceState.completed)).timer = s.timer ∧
     (recStep (recStep s (RecEvt.iceChange IceState.completed))
        RecEvt.graceFire).reconnectCalls = s.reconnectCalls) := by
  refine ⟨⟨rfl, rfl, ?_⟩, ⟨rfl, rfl, ?_⟩⟩ <;>
  · cases ht : s.timer with
    | none => simp [recStep, ht]
    | some t =>
      cases t with
      | mk k d => cases k <;> simp [recStep, ht]

/-- C5 counterexample: connect() (first variant) invoked on a fully
connected state is not a no-op and is not rejected — the source has no
guard on the current status. It sets status connecting, installs a
second, fresh peer connection, and drops the reference to the prior
connection while that connection is still unclosed (closed = false):
two live peer connections exist and a duplicate handshake has begun. -/
theorem c5_counterexample :
    (connectStartV1 sConnected 1).1 ≠ sConnected ∧
    (connectStartV1 sConnected 1).1.status = ConnStatus.connecting ∧
    (connectStartV1 sConnected 1).1.pcRef = some (newPeerConn 1) ∧
    (connectStartV1 sConnected 1).2 =
      some { pcId := 0, closed := false, iceState := IceState.connected } := by
  refine ⟨by decide, rfl, rfl, rfl⟩

/-- C5 amended: the first variant's connect() is unguarded — from any
state it sets status connecting and replaces the peer-connection ref by
a fresh connection, returning the prior ref exactly as it was (in
particular, not closed by connect); only the second variant prevents a
duplicate handshake, via the isSessionStarted flag: once it is set,
connect() re-sets status connecting but keeps the existing peer
connection and performs no new handshake. -/
theorem c5_connect_reentrancy (s : HookState) (s2 : HookStateV2) (fresh : Nat) :
    ((connectStartV1 s fresh).1.status = ConnStatus.connecting ∧
     (connectStartV1 s fresh).1.pcRef = some (newPeerConn fresh) ∧
     (connectStartV1 s fresh).2 = s.pcRef) ∧
    (s2.isSessionStarted = true →
      (connectStartV2 s2 fresh).base.pcRef = s2.base.pcRef ∧
      (connectStartV2 s2 fresh).base.status = ConnStatus.connecting ∧
      (connectStartV2 s2 fresh).isSessionStarted = true) := by
  constructor
  · exact ⟨rfl, rfl, rfl⟩
  · intro h
    simp [connectStartV2, h]

/-- C5 witness: the reentrancy facts at a connected base state and at a
second-variant state whose session has started. -/
theorem c5_witness :
    ((connectStartV1 sConnected 7).1.status = ConnStatus.connecting ∧
     (connectStartV1 sConnected 7).1.pcRef = some (newPeerConn 7) ∧
     (connectStartV1 sConnected 7).2 = sConnected.pcRef) ∧
    ((connectStartV2 s2Started 7).base.pcRef = s2Started.base.pcRef ∧
     (connectStartV2 s2Started 7).base.status = ConnStatus.connecting ∧
     (connectStartV2 s2Started 7).isSessionStarted = true) :=
  ⟨(c5_connect_reentrancy sConnected s2Started 7).1,
   (c5_connect_reentrancy sConnected s2Started 7).2 (by rfl)⟩

/-- C6 counterexample: in the second variant, a connection failure on
the very first attempt (counter 0, retries far from exhausted) sets the
externally observable status to error while a retry is scheduled: the
catch block sets the error state unconditionally and attemptReconnect
then arms the 2000 ms backoff timeout with the counter at 1. The claim
says error is shown only on the final, exhausted attempt. -/
theorem c6_counterexample :
    (handleConnectFailureV2 sFirstTry "OpenAI SDP exchange failed: 500").status
      = ConnStatus.error ∧
    (handleConnectFailureV2 sFirstTry "OpenAI SDP exchange failed: 500").timerRef
      = some ⟨TimerKind.reconnect, 2000⟩ ∧
    (handleConnectFailureV2 sFirstTry "OpenAI SDP exchange failed: 500").attempts = 1 := by
  refine ⟨rfl, rfl, rfl⟩

/-- C6 amended: the second variant's failure handler always leaves
status error — also on intermediate attempts, where it additionally arms
the next backoff timeout — and the first variant's failure handler ends
in the disconnect() cleanup state, so the observable status during its
retries is disconnected, not connecting. -/
theorem c6_retry_status (s : HookState) (msg : String) :
    (handleConnectFailureV2 s msg).status = ConnStatus.error ∧
    (s.attempts < maxReconnectAttempts →
      (handleConnectFailureV2 s msg).timerRef =
        some ⟨TimerKind.reconnect, baseDelay * (s.attempts + 1)⟩) ∧
    (handleConnectFailureV1 s msg).1 = cleanState ∧
    (handleConnectFailureV1 s msg).1.status = ConnStatus.disconnected := by
  refine ⟨?_, ?_, rfl, rfl⟩
  · simp only [handleConnectFailureV2, attemptReconnectV2]
    split <;> rfl
  · intro h
    simp [handleConnectFailureV2, attemptReconnectV2, h]

/-- C6 witness: the retry-status facts at a first-attempt state. -/
theorem c6_witness :
    (handleConnectFailureV2 sFirstTry "boom").status = ConnStatus.error ∧
    (handleConnectFailureV2 sFirstTry "boom").timerRef =
      some ⟨TimerKind.reconnect, baseDelay * (sFirstTry.attempts + 1)⟩ ∧
    (handleConnectFailureV1 sFirstTry "boom").1 = cleanState ∧
    (handleConnectFailureV1 sFirstTry "boom").1.status = ConnStatus.disconnected :=
  ⟨(c6_retry_status sFirstTry "boom").1,
   (c6_retry_status sFirstTry "boom").2.1 (by decide),
   (c6_retry_status sFirstTry "boom").2.2.1,
   (c6_retry_status sFirstTry "boom").2.2.2⟩

/-- C8 counterexample: with a raising listener registered before a
well-behaved one, the second variant's message listener invokes only the
raiser — the exception aborts the forEach and the second listener never
sees the event — while the first variant's per-listener catch lets both
run. The claim says every subsequent listener is still invoked in both
cited handlers. -/
theorem c8_counterexample :
    publishV2 [raiser, quiet] demoEvent = [(0, Outcome.raised)] ∧
    publishV1 [raiser, quiet] demoEvent = [(0, Outcome.raised), (1, Outcome.ok)] := by
  exact ⟨rfl, rfl⟩

/-- C8 amended: the first variant invokes every registered listener
synchronously in registration order with the same event, isolating
raising listeners; the second variant matches it only when no listener
raises, and a raising listener there ends delivery at itself. -/
theorem c8_publish_isolation (ls rest : List Listener) (l : Listener) (e : RealtimeEvent) :
    (publishV1 ls e = ls.map fun l' => (l'.lid, l'.behave e)) ∧
    ((∀ l' ∈ ls, l'.behave e = Outcome.ok) → publishV2 ls e = publishV1 ls e) ∧
    (l.behave e = Outcome.raised → publishV2 (l :: rest) e = [(l.lid, Outcome.raised)]) := by
  refine ⟨?_, ?_, ?_⟩
  · induction ls with
    | nil => rfl
    | cons a t ih => simp [publishV1, ih]
  · induction ls with
    | nil => intro _; rfl
    | cons a t ih =>
      intro hok
      have ha : a.behave e = Outcome.ok := hok a (List.mem_cons_self a t)
      have ht : publishV2 t e = publishV1 t e :=
        ih fun l' hl' => hok l' (List.mem_cons_of_mem a hl')
      simp [publishV1, publishV2, ha, ht]
  · intro h
    simp [publishV2, h]

/-- C8 witness: the delivery facts at the two sample listeners. -/
theorem c8_witness :
    (publishV1 [raiser, quiet] demoEvent
      = [raiser, quiet].map fun l' => (l'.lid, l'.behave demoEvent)) ∧
    (publishV2 [quiet] demoEvent = publishV1 [quiet] demoEvent) ∧
    (publishV2 (raiser :: [quiet]) demoEvent = [(raiser.lid, Outcome.raised)]) :=
  ⟨(c8_publish_isolation [raiser, quiet] [quiet] raiser demoEvent).1,
   (c8_publish_isolation [quiet] [quiet] raiser demoEvent).2.1
     (by intro l' hl'; rw [List.mem_singleton] at hl'; subst hl'; rfl),
   (c8_publish_isolation [raiser, quiet] [quiet] raiser demoEvent).2.2 (by rfl)⟩

end RW
